import Mathlib

/-! Verification of the data-quality validation subsystem of the
kiwoom-trading repository (`src/core/data_validator.py` and
`src/core/database.py`).

Modelling conventions:
* A Python `datetime.date` value is represented by its absolute day number
  (`Day := Nat`, days since 0000-03-01 in the proleptic Gregorian calendar);
  `civilFromDays` / `daysFromCivil` are the standard civil-calendar
  conversions the Python `date` type implements internally, and
  `pyWeekday` matches Python's `date.weekday()` (Monday = 0 .. Sunday = 6).
* Dates stored in the relational tables are 8-digit `YYYYMMDD` strings in
  the source; they are represented here as the corresponding natural number
  (e.g. `20250102`), so SQL `MIN`/`MAX`/equality on those strings coincide
  with `Nat` order, and `strptime`/`strftime` become `parseYmd`/`formatYmd`.
* SQL `NULL`-able integer columns become `Option Int`; SQL aggregates are
  spelled out over the list of rows (`COUNT(*)` = length, `AVG` = exact
  rational mean, comparisons with `NULL` are false as in SQL).
* Python floats (averages, thresholds, ratios) are modelled as exact
  rationals; Python `int()` on the non-negative values involved is
  `Int.floor`.
* Timestamp columns (`created_at`, `updated_at`, `last_updated`) and the
  auto-increment `id` column carry no information any claim depends on and
  are omitted from the row/registry records.
-/

namespace Kiwoom

/-- Absolute day number: days since 0000-03-01, proleptic Gregorian. -/
abbrev Day := Nat

/-- Civil-calendar conversion: day number to (year, month, day).
This is the arithmetic Python's `datetime.date` performs internally. -/
def civilFromDays (n : Nat) : Nat × Nat × Nat :=
  let era := n / 146097
  let doe := n % 146097
  let yoe := (doe - doe / 1460 + doe / 36524 - doe / 146096) / 365
  let y := yoe + era * 400
  let doy := doe - (365 * yoe + yoe / 4 - yoe / 100)
  let mp := (5 * doy + 2) / 153
  let d := doy - (153 * mp + 2) / 5 + 1
  let m := if mp < 10 then mp + 3 else mp - 9
  (if m ≤ 2 then y + 1 else y, m, d)

/-- Civil-calendar conversion: (year, month, day) to day number. -/
def daysFromCivil (y m d : Nat) : Nat :=
  let yAdj := if m ≤ 2 then y - 1 else y
  let era := yAdj / 400
  let yoe := yAdj % 400
  let mp := if 2 < m then m - 3 else m + 9
  let doy := (153 * mp + 2) / 5 + d - 1
  let doe := yoe * 365 + yoe / 4 - yoe / 100 + doy
  era * 146097 + doe

/-- Python's `date.weekday()`: Monday = 0, ..., Saturday = 5, Sunday = 6.
0000-03-01 was a Wednesday (= 2). -/
def pyWeekday (n : Day) : Nat := (n + 2) % 7

/-- Embeds `TradingDateCalculator.get_korean_holidays`: the fixed per-year holiday
list, extended for 2025 with the lunar/substitute holidays. -/
def get_korean_holidays (year : Nat) : List (Nat × Nat × Nat) :=
  let holidays : List (Nat × Nat × Nat) :=
    [(year, 1, 1), (year, 3, 1), (year, 5, 5), (year, 6, 6),
     (year, 8, 15), (year, 10, 3), (year, 10, 9), (year, 12, 25)]
  if year = 2025 then
    holidays ++ [(2025, 1, 28), (2025, 1, 29), (2025, 1, 30),
                 (2025, 5, 6), (2025, 10, 6)]
  else holidays

/-- Embeds `TradingDateCalculator.is_trading_day`: not a weekend
(`weekday() >= 5`) and not in the holiday list of the date's year. -/
def is_trading_day (n : Day) : Bool :=
  if 5 ≤ pyWeekday n then false
  else
    let c := civilFromDays n
    if (get_korean_holidays c.1).contains c then false else true

/-- The loop of `get_trading_days_between`, with the iteration count
(`end - current + 1`) made an explicit structural argument so that the
definition computes by structural recursion. -/
def gtdbAux : Nat → Nat → List Day
  | 0, _ => []
  | fuel + 1, s => (if is_trading_day s then [s] else []) ++ gtdbAux fuel (s + 1)

/-- Embeds `TradingDateCalculator.get_trading_days_between`: iterate from
`start_date` while `current_date <= end_date`, collecting trading days. -/
def get_trading_days_between (s e : Nat) : List Day :=
  gtdbAux (e + 1 - s) s

/-- Parse an 8-digit `YYYYMMDD` number into a day number
(Python `datetime.strptime(s, '%Y%m%d').date()`). -/
def parseYmd (v : Nat) : Day := daysFromCivil (v / 10000) (v / 100 % 100) (v % 100)

/-- Format a day number as an 8-digit `YYYYMMDD` number
(Python `d.strftime('%Y%m%d')`). -/
def formatYmd (n : Day) : Nat :=
  let c := civilFromDays n
  c.1 * 10000 + c.2.1 * 100 + c.2.2

/-- One row of a per-instrument `daily_prices_{code}` table (§ database.py
`create_stock_daily_table`).  `date` is the `YYYYMMDD` value; the numeric
columns are nullable integers.  The `id` autoincrement key and the
`created_at` timestamp are omitted. -/
structure Row where
  date : Nat
  start_price : Option Int
  high_price : Option Int
  low_price : Option Int
  current_price : Option Int
  volume : Option Int
  trading_value : Option Int
  prev_day_diff : Option Int
  change_rate : Option Int
deriving DecidableEq, Repr

/-- The arguments of `EnhancedDatabaseService.add_daily_price_to_stock`
for one daily bar.  `change_rate` is the raw float argument (stored scaled
by 100 and truncated to an integer). -/
structure Bar where
  date : Nat
  current_price : Int
  volume : Int
  trading_value : Int
  start_price : Int
  high_price : Int
  low_price : Int
  prev_day_diff : Int := 0
  change_rate : Rat := 0
deriving DecidableEq, Repr

/-- Python `int()` (truncation toward zero) on a rational. -/
def pyInt (q : Rat) : Int := if q < 0 then Int.ceil q else Int.floor q

/-- The row written for a bar by the upsert path: every measured column is
set (non-null); `change_rate` is stored as `int(change_rate * 100)`. -/
def barToRow (b : Bar) : Row :=
  { date := b.date
    start_price := some b.start_price
    high_price := some b.high_price
    low_price := some b.low_price
    current_price := some b.current_price
    volume := some b.volume
    trading_value := some b.trading_value
    prev_day_diff := some b.prev_day_diff
    change_rate := some (pyInt (b.change_rate * 100)) }

/-- One `stocks` registry row (§ database.py `Stock`), timestamps omitted. -/
structure StockMeta where
  code : String
  name : String
  market : String
  table_created : Bool
  data_count : Nat
  first_date : Option Nat
  latest_date : Option Nat
  is_active : Bool
deriving DecidableEq, Repr

/-- The relational store: the `stocks` registry plus the per-instrument
physical tables, keyed by physical table name. -/
structure DB where
  stocks : List StockMeta
  tables : List (String × List Row)
deriving DecidableEq, Repr

/-- Look up a physical table by name (first binding wins, mirroring a
store in which table names are unique). -/
def lookupTable : List (String × List Row) → String → Option (List Row)
  | [], _ => none
  | (n, rs) :: rest, name => if n = name then some rs else lookupTable rest name

/-- Replace the contents of the named physical table (no-op when absent). -/
def updateTable : List (String × List Row) → String → List Row → List (String × List Row)
  | [], _, _ => []
  | (n, rs) :: rest, name, rows =>
    if n = name then (n, rows) :: rest else (n, rs) :: updateTable rest name rows

/-- Embeds `session.query(Stock).filter(Stock.code == code).first()`. -/
def findStock : List StockMeta → String → Option StockMeta
  | [], _ => none
  | s :: rest, code => if s.code = code then some s else findStock rest code

/-- Mutate the first registry row with the given code (SQLAlchemy mutates
the object returned by `.first()`). -/
def updateStock : List StockMeta → String → (StockMeta → StockMeta) → List StockMeta
  | [], _, _ => []
  | s :: rest, code, f =>
    if s.code = code then f s :: rest else s :: updateStock rest code f

/-- Embeds `DynamicTableManager.get_stock_table_name`. -/
def get_stock_table_name (stock_code : String) : String :=
  "daily_prices_" ++ stock_code

/-- Embeds `DynamicTableManager.check_stock_table_exists`: queries
`sqlite_master` for the table name. -/
def check_stock_table_exists (db : DB) (stock_code : String) : Bool :=
  (lookupTable db.tables (get_stock_table_name stock_code)).isSome

/-- Embeds `DynamicTableManager.create_stock_daily_table`: success no-op when the
table already exists, else provision an empty table. -/
def create_stock_daily_table (db : DB) (stock_code : String) : DB × Bool :=
  if check_stock_table_exists db stock_code then (db, true)
  else ({ db with tables := (get_stock_table_name stock_code, []) :: db.tables }, true)

/-- Embeds `StockMetadataManager.register_stock`: update name/market of an
existing row (a `None` argument leaves the field intact), or insert a new
active row with defaulted name/market. -/
def register_stock (db : DB) (stock_code : String)
    (name market : Option String) : DB × Bool :=
  match findStock db.stocks stock_code with
  | some _ =>
    let ss := updateStock db.stocks stock_code (fun s =>
      { s with name := name.getD s.name, market := market.getD s.market })
    ({ db with stocks := ss }, true)
  | none =>
    let newStock : StockMeta :=
      { code := stock_code
        name := name.getD ("종목_" ++ stock_code)
        market := market.getD "UNKNOWN"
        table_created := false
        data_count := 0
        first_date := none
        latest_date := none
        is_active := true }
    ({ db with stocks := db.stocks ++ [newStock] }, true)

/-- Embeds `StockMetadataManager.mark_table_created`: set the flag, failing when
the instrument is unknown. -/
def mark_table_created (db : DB) (stock_code : String) : DB × Bool :=
  match findStock db.stocks stock_code with
  | some _ =>
    let ss := updateStock db.stocks stock_code (fun s => { s with table_created := true })
    ({ db with stocks := ss }, true)
  | none => (db, false)

/-- Embeds `StockMetadataManager.update_stock_stats`: recompute `data_count`
(`COUNT(*)`) and `first_date`/`latest_date` (`MIN(date)`/`MAX(date)`,
`None` when the table is empty) from the physical table and write them to
the registry row.  A missing registry row returns failure; a missing
physical table makes the SQL query raise, which the source catches and
turns into failure. -/
def update_stock_stats (db : DB) (stock_code : String) : DB × Bool :=
  match findStock db.stocks stock_code with
  | none => (db, false)
  | some _ =>
    match lookupTable db.tables ("daily_prices_" ++ stock_code) with
    | none => (db, false)
    | some rows =>
      let data_count := rows.length
      let first_date := if 0 < data_count then (rows.map (·.date)).min? else none
      let latest_date := if 0 < data_count then (rows.map (·.date)).max? else none
      let ss := updateStock db.stocks stock_code (fun s =>
        { s with data_count := data_count, first_date := first_date,
                 latest_date := latest_date })
      ({ db with stocks := ss }, true)

/-- Aggregates returned by `StockMetadataManager.get_collection_status`. -/
structure CollectionStatus where
  total_stocks : Nat
  created_tables : Nat
  total_records : Nat
  completion_rate : Rat
deriving DecidableEq, Repr

/-- Embeds `StockMetadataManager.get_collection_status`: counts over active
registry rows and the created/total completion percentage (0 when there
are no active instruments). -/
def get_collection_status (db : DB) : CollectionStatus :=
  let actives := db.stocks.filter (·.is_active)
  let total_stocks := actives.length
  let created_tables := (actives.filter (·.table_created)).length
  let total_records := (actives.map (·.data_count)).sum
  { total_stocks := total_stocks
    created_tables := created_tables
    total_records := total_records
    completion_rate :=
      if 0 < total_stocks then (created_tables : Rat) / (total_stocks : Rat) * 100 else 0 }

/-- Embeds `EnhancedDatabaseService.prepare_stock_for_collection`: register the
instrument, create its table, then mark the flag (whose own result is
ignored by the source). -/
def prepare_stock_for_collection (db : DB) (stock_code : String)
    (name market : Option String) : DB × Bool :=
  let r := register_stock db stock_code name market
  if r.2 then
    let c := create_stock_daily_table r.1 stock_code
    if c.2 then ((mark_table_created c.1 stock_code).1, true)
    else (r.1, false)
  else (db, false)

/-- Embeds `EnhancedDatabaseService.add_daily_price_to_stock`: auto-create the
table on first write, then update the row for `bar.date` if one exists
(the SQL `UPDATE ... WHERE date = :date` rewrites every matching row) or
insert a fresh row, and finally refresh the registry stats. -/
def add_daily_price_to_stock (db : DB) (stock_code : String) (bar : Bar) : DB × Bool :=
  let p :=
    if check_stock_table_exists db stock_code then (db, true)
    else prepare_stock_for_collection db stock_code none none
  if p.2 then
    let tn := get_stock_table_name stock_code
    let rows := (lookupTable p.1.tables tn).getD []
    let rows' :=
      if rows.any (fun r => r.date = bar.date) then
        rows.map (fun r => if r.date = bar.date then barToRow bar else r)
      else rows ++ [barToRow bar]
    let db1 : DB := { p.1 with tables := updateTable p.1.tables tn rows' }
    ((update_stock_stats db1 stock_code).1, true)
  else (db, false)

/-- Write a batch of bars through the upsert path, in order. -/
def writeBars (db : DB) (stock_code : String) (bars : List Bar) : DB :=
  bars.foldl (fun d b => (add_daily_price_to_stock d stock_code b).1) db

/-- The rows of an instrument's physical table (empty when absent). -/
def tableRows (db : DB) (stock_code : String) : List Row :=
  (lookupTable db.tables (get_stock_table_name stock_code)).getD []

/-- The typed payload placed in `ValidationResult.details` by each check
(a Python dict in the source; the constructor fields follow the dict keys,
`zero_pct` standing for the zero-volume percentage key). -/
inductive Details where
  | noDetails : Details
  | dataCount (total_count : Nat) : Details
  | nullData (field : String) (null_count total_count : Nat) : Details
  | missingDays (expected_count actual_count : Nat) (missing_count : Int)
      (missing_dates : List Nat) (range_first range_last : Nat) : Details
  | missingPass (expected_count actual_count : Nat) : Details
  | priceAnomalies (avg_price : Int) (anomalies : List (Nat × Int))
      (threshold_low threshold_high : Int) : Details
  | zeroPrice (zero_count : Nat) : Details
  | priceQuality (avg_price min_price max_price : Int) : Details
  | zeroVolume (zero_count total_count : Nat) (zero_pct : Rat) : Details
  | volumeQuality (avg_volume : Int) : Details
  | duplicateDates (duplicate_dates : List (Nat × Nat)) (total_duplicate_records : Nat) : Details
deriving DecidableEq, Repr

/-- The `ValidationResult` dataclass. -/
structure ValidationResult where
  stock_code : String
  check_type : String
  status : String
  message : String
  details : Details := .noDetails
deriving DecidableEq, Repr

/-- SQL `SELECT ... WHERE current_price IS NOT NULL AND current_price > 0`:
the non-null positive close prices of a table. -/
def positivePrices (rows : List Row) : List Int :=
  (rows.filterMap (·.current_price)).filter (fun v => 0 < v)

/-- SQL `AVG(current_price)` over the non-null positive close prices. -/
def avgClose (rows : List Row) : Rat :=
  ((positivePrices rows).sum : Rat) / ((positivePrices rows).length : Rat)

/-- SQL `WHERE current_price < low OR current_price > high` with the
thresholds `avg*0.5` / `avg*3.0`; comparing `NULL` is false in SQL. -/
def priceAnomalousRows (rows : List Row) : List Row :=
  rows.filter (fun r =>
    match r.current_price with
    | some v => decide ((v : Rat) < avgClose rows * (1/2)) ||
                decide (avgClose rows * 3 < (v : Rat))
    | none => false)

/-- SQL `ORDER BY date DESC`. -/
def sortByDateDesc (rows : List Row) : List Row :=
  List.insertionSort (fun a b => b.date ≤ a.date) rows

/-- The `(date, current_price)` pairs reported for the (at most 10, most
recent first) anomalous rows. -/
def anomalyReportPairs (rows : List Row) : List (Nat × Int) :=
  ((sortByDateDesc (priceAnomalousRows rows)).take 10).filterMap
    (fun r => r.current_price.map ((r.date, ·)))

/-- SQL `COUNT(*) WHERE current_price = 0 OR current_price IS NULL`. -/
def zeroPriceCount (rows : List Row) : Nat :=
  rows.countP (fun r => decide (r.current_price = some 0 ∨ r.current_price = none))

/-- SQL `COUNT(*) WHERE volume = 0 OR volume IS NULL`. -/
def zeroVolumeCount (rows : List Row) : Nat :=
  rows.countP (fun r => decide (r.volume = some 0 ∨ r.volume = none))

/-- SQL `AVG(volume) WHERE volume > 0`, with the source's
`result[0] if result and result[0] else 0` defaulting. -/
def avgVolume (rows : List Row) : Rat :=
  let pos : List Int := (rows.filterMap (·.volume)).filter (fun v => 0 < v)
  if pos.length = 0 then 0 else (pos.sum : Rat) / (pos.length : Rat)

/-- SQL `GROUP BY date HAVING COUNT(*) > 1 ORDER BY date DESC`: the
duplicated dates (descending) with their row counts. -/
def duplicateDatePairs (rows : List Row) : List (Nat × Nat) :=
  let dates := rows.map (·.date)
  let dups := (dates.dedup.filter (fun d => 1 < dates.count d))
  (List.insertionSort (fun a b : Nat => b ≤ a) dups).map (fun d => (d, dates.count d))

/-- Embeds `DataQualityValidator._check_basic_data_quality`. -/
def check_basic_data_quality (stock_code : String) (rows : List Row) :
    List ValidationResult :=
  let total_count := rows.length
  if total_count = 0 then
    [{ stock_code := stock_code, check_type := "DATA_COUNT", status := "WARNING",
       message := "데이터가 없음", details := .dataCount 0 }]
  else
    let null_checks : List ((Row → Option Int) × String × String) :=
      [(Row.current_price, "current_price", "종가가 NULL인 데이터"),
       (Row.volume, "volume", "거래량이 NULL인 데이터"),
       (Row.start_price, "start_price", "시가가 NULL인 데이터"),
       (Row.high_price, "high_price", "고가가 NULL인 데이터"),
       (Row.low_price, "low_price", "저가가 NULL인 데이터")]
    let nullResults := null_checks.filterMap (fun fd =>
      let null_count := rows.countP (fun r => decide (fd.1 r = none))
      if 0 < null_count then
        some { stock_code := stock_code, check_type := "NULL_DATA", status := "WARNING",
               message := fd.2.2 ++ ": " ++ toString null_count ++ "개",
               details := Details.nullData fd.2.1 null_count total_count }
      else none)
    nullResults ++
      [{ stock_code := stock_code, check_type := "DATA_COUNT", status := "PASS",
         message := "총 " ++ toString total_count ++ "개 데이터 존재",
         details := .dataCount total_count }]

/-- The `MIN(date)` of a table, defaulting to 0 on an empty table. -/
def minDate (rows : List Row) : Nat := ((rows.map (·.date)).min?).getD 0

/-- The `MAX(date)` of a table, defaulting to 0 on an empty table. -/
def maxDate (rows : List Row) : Nat := ((rows.map (·.date)).max?).getD 0

/-- The expected trading days of the stored `[MIN(date), MAX(date)]`
range, per the Trading Calendar. -/
def expectedDays (rows : List Row) : List Day :=
  get_trading_days_between (parseYmd (minDate rows)) (parseYmd (maxDate rows))

/-- The missing-day count the source computes:
`len(expected_trading_days) - COUNT(*)` (the row count, not the distinct
date count). -/
def tableMissingCount (rows : List Row) : Int :=
  ((expectedDays rows).length : Int) - (rows.length : Int)

/-- The sample missing dates: set-difference of the expected `YYYYMMDD`
list against the stored dates, in calendar order. -/
def tableMissingDates (rows : List Row) : List Nat :=
  ((expectedDays rows).map formatYmd).filter (fun d => !((rows.map (·.date)).contains d))

/-- Embeds `DataQualityValidator._check_missing_trading_days`: compare the
trading-calendar day count of `[MIN(date), MAX(date)]` against
`COUNT(*)`, sampling the set-difference dates when some are missing. -/
def check_missing_trading_days (stock_code : String) (rows : List Row) :
    List ValidationResult :=
  let dates := rows.map (·.date)
  match dates.min?, dates.max? with
  | some first_date, some last_date =>
    let actual_count := rows.length
    let expected_trading_days := get_trading_days_between (parseYmd first_date) (parseYmd last_date)
    let expected_count := expected_trading_days.length
    let missing_count : Int := (expected_count : Int) - (actual_count : Int)
    if 0 < missing_count then
      let expected_dates := expected_trading_days.map formatYmd
      let missing_dates := expected_dates.filter (fun d => !(dates.contains d))
      let status := if missing_count ≤ 5 then "WARNING" else "ERROR"
      [{ stock_code := stock_code, check_type := "MISSING_TRADING_DAYS", status := status,
         message := "누락된 거래일: " ++ toString missing_count ++ "개",
         details := .missingDays expected_count actual_count missing_count
           (missing_dates.take 10) first_date last_date }]
    else
      [{ stock_code := stock_code, check_type := "MISSING_TRADING_DAYS", status := "PASS",
         message := "거래일 데이터 완전함 (" ++ toString actual_count ++ "개)",
         details := .missingPass expected_count actual_count }]
  | _, _ => []

/-- Embeds `DataQualityValidator._check_price_anomalies`: statistics over the
positive close prices (early empty return when there are none), the
out-of-band rows (most recent 10), and the zero/NULL close count. -/
def check_price_anomalies (stock_code : String) (rows : List Row) :
    List ValidationResult :=
  if (positivePrices rows).length = 0 then []
  else
    let avg_price := avgClose rows
    let min_price := (positivePrices rows).min?.getD 0
    let max_price := (positivePrices rows).max?.getD 0
    let anomalies := (sortByDateDesc (priceAnomalousRows rows)).take 10
    let anomalyPairs := anomalyReportPairs rows
    let zero_count := zeroPriceCount rows
    let res1 :=
      if anomalies.isEmpty then []
      else
        [{ stock_code := stock_code, check_type := "PRICE_ANOMALIES", status := "WARNING",
           message := "가격 이상값 " ++ toString anomalies.length ++ "개 발견",
           details := Details.priceAnomalies (Int.floor avg_price) anomalyPairs
             (Int.floor (avg_price * (1/2))) (Int.floor (avg_price * 3)) }]
    let res2 :=
      if 0 < zero_count then
        [{ stock_code := stock_code, check_type := "ZERO_PRICE", status := "ERROR",
           message := "0원 또는 NULL 가격 데이터: " ++ toString zero_count ++ "개",
           details := Details.zeroPrice zero_count }]
      else []
    let res3 :=
      if anomalies.isEmpty ∧ zero_count = 0 then
        [{ stock_code := stock_code, check_type := "PRICE_QUALITY", status := "PASS",
           message := "가격 데이터 품질 양호",
           details := Details.priceQuality (Int.floor avg_price) min_price max_price }]
      else []
    res1 ++ res2 ++ res3

/-- Embeds `DataQualityValidator._check_volume_data`: zero/NULL-volume count with
a WARNING/ERROR percentage threshold, or PASS with the truncated mean of
the positive volumes. -/
def check_volume_data (stock_code : String) (rows : List Row) :
    List ValidationResult :=
  let zero_volume_count := zeroVolumeCount rows
  let total_count := rows.length
  if 0 < zero_volume_count then
    let zero_pct : Rat := ((zero_volume_count : Rat) / (total_count : Rat)) * 100
    let status := if zero_pct < 10 then "WARNING" else "ERROR"
    [{ stock_code := stock_code, check_type := "ZERO_VOLUME", status := status,
       message := "거래량 0인 데이터: " ++ toString zero_volume_count ++ "개",
       details := .zeroVolume zero_volume_count total_count zero_pct }]
  else
    [{ stock_code := stock_code, check_type := "VOLUME_QUALITY", status := "PASS",
       message := "거래량 데이터 양호",
       details := .volumeQuality (Int.floor (avgVolume rows)) }]

/-- Embeds `DataQualityValidator._check_duplicate_dates`. -/
def check_duplicate_dates (stock_code : String) (rows : List Row) :
    List ValidationResult :=
  let duplicates := duplicateDatePairs rows
  match duplicates with
  | [] =>
    [{ stock_code := stock_code, check_type := "DUPLICATE_DATES", status := "PASS",
       message := "중복 날짜 없음" }]
  | _ =>
    let total_duplicates := (duplicates.map (fun p => p.2 - 1)).sum
    [{ stock_code := stock_code, check_type := "DUPLICATE_DATES", status := "ERROR",
       message := "중복 날짜 데이터: " ++ toString duplicates.length ++ "개 날짜, 총 " ++
         toString total_duplicates ++ "개 중복",
       details := .duplicateDates (duplicates.take 10) total_duplicates }]

/-- Embeds `DataQualityValidator.validate_stock_data`: short-circuit on a missing
table, otherwise run the five checks in sequence and concatenate. -/
def validate_stock_data (db : DB) (stock_code : String) : List ValidationResult :=
  if check_stock_table_exists db stock_code then
    let rows := (lookupTable db.tables (get_stock_table_name stock_code)).getD []
    check_basic_data_quality stock_code rows ++
    check_missing_trading_days stock_code rows ++
    check_price_anomalies stock_code rows ++
    check_volume_data stock_code rows ++
    check_duplicate_dates stock_code rows
  else
    [{ stock_code := stock_code, check_type := "TABLE_EXISTS", status := "ERROR",
       message := "종목 테이블이 존재하지 않음" }]

/-! Section: Concrete fixtures used by witnesses and counterexamples -/

/-- A table row with the given date, close price and volume (the other
columns filled with representative non-null values). -/
def sampleRow (d : Nat) (cp vol : Option Int) : Row :=
  { date := d, start_price := some 1, high_price := some 2, low_price := some 1,
    current_price := cp, volume := vol, trading_value := some 10,
    prev_day_diff := some 0, change_rate := some 0 }

/-- A bar with the given date, close price and volume. -/
def sampleBar (d : Nat) (cp vol : Int) : Bar :=
  { date := d, current_price := cp, volume := vol, trading_value := 10,
    start_price := 1, high_price := 2, low_price := 1 }

/-- 20 rows of which 18 have volume 0 (the spec's zero-volume scenario). -/
def volRows20 : List Row :=
  List.replicate 18 (sampleRow 20250101 (some 100) (some 0)) ++
    [sampleRow 20250201 (some 100) (some 5), sampleRow 20250202 (some 100) (some 10)]

/-- Two rows with positive volumes 5 and 10 (mean 7.5). -/
def volRows2 : List Row :=
  [sampleRow 20250201 (some 100) (some 5), sampleRow 20250202 (some 100) (some 10)]

/-- Rows dated 20250107 (twice) and 20250109: the duplicate masks the
missing trading day 20250108 from the row count. -/
def dupGapRows : List Row :=
  [sampleRow 20250107 (some 100) (some 1), sampleRow 20250107 (some 100) (some 1),
   sampleRow 20250109 (some 100) (some 1)]

/-- Rows dated 20250102 and 20250106, leaving the trading day 20250103
missing (20250104/05 are a weekend). -/
def gapRows : List Row :=
  [sampleRow 20250102 (some 100) (some 1), sampleRow 20250106 (some 100) (some 1)]

/-- One row with positive close 100 and one with close 0. -/
def mixedRows : List Row :=
  [sampleRow 20250102 (some 100) (some 1), sampleRow 20250103 (some 0) (some 1)]

/-- A single row with close 100: no anomaly, no zero price. -/
def cleanRow1 : List Row := [sampleRow 20250102 (some 100) (some 1)]

/-! Section: Properties of the Trading Calendar -/

theorem gtdb_unfold (s e : Nat) :
    get_trading_days_between s e =
      if s ≤ e then
        (if is_trading_day s then [s] else []) ++ get_trading_days_between (s + 1) e
      else [] := by
  rw [get_trading_days_between, get_trading_days_between]
  by_cases h : s ≤ e
  · rw [if_pos h, show e + 1 - s = (e + 1 - (s + 1)) + 1 by omega]
    rfl
  · rw [if_neg h, show e + 1 - s = 0 by omega]
    rfl

theorem gtdb_nil {s e : Nat} (h : e < s) : get_trading_days_between s e = [] := by
  rw [gtdb_unfold, if_neg (Nat.not_le.mpr h)]

theorem mem_gtdb : ∀ (k s e d : Nat), e + 1 - s ≤ k →
    (d ∈ get_trading_days_between s e ↔ (s ≤ d ∧ d ≤ e ∧ is_trading_day d = true)) := by
  intro k
  induction k with
  | zero =>
    intro s e d h
    rw [gtdb_nil (by omega)]
    simp only [List.not_mem_nil, false_iff]
    omega
  | succ n ih =>
    intro s e d h
    rw [gtdb_unfold]
    by_cases hse : s ≤ e
    · rw [if_pos hse]
      rw [List.mem_append, ih (s + 1) e d (by omega)]
      by_cases hts : is_trading_day s
      · rw [if_pos hts]
        simp only [List.mem_singleton]
        constructor
        · rintro (rfl | ⟨h1, h2, h3⟩)
          · exact ⟨Nat.le_refl d, hse, hts⟩
          · exact ⟨by omega, h2, h3⟩
        · rintro ⟨h1, h2, h3⟩
          by_cases hds : d = s
          · exact Or.inl hds
          · exact Or.inr ⟨by omega, h2, h3⟩
      · rw [if_neg hts]
        simp only [List.not_mem_nil, false_or]
        constructor
        · rintro ⟨h1, h2, h3⟩
          exact ⟨by omega, h2, h3⟩
        · rintro ⟨h1, h2, h3⟩
          refine ⟨?_, h2, h3⟩
          rcases Nat.lt_or_ge s d with hlt | hge
          · omega
          · exact absurd h3 (by rw [show d = s by omega]; simpa using hts)
    · rw [if_neg hse]
      simp only [List.not_mem_nil, false_iff]
      omega

theorem gtdb_sorted : ∀ (k s e : Nat), e + 1 - s ≤ k →
    List.Sorted (· < ·) (get_trading_days_between s e) := by
  intro k
  induction k with
  | zero =>
    intro s e h
    rw [gtdb_nil (by omega)]
    exact List.sorted_nil
  | succ n ih =>
    intro s e h
    rw [gtdb_unfold]
    by_cases hse : s ≤ e
    · rw [if_pos hse]
      by_cases hts : is_trading_day s
      · rw [if_pos hts]
        simp only [List.singleton_append, List.sorted_cons]
        refine ⟨?_, ih (s + 1) e (by omega)⟩
        intro b hb
        have hm := (mem_gtdb n (s + 1) e b (by omega)).mp hb
        show s < b
        omega
      · rw [if_neg hts]
        simpa using ih (s + 1) e (by omega)
    · rw [if_neg hse]
      exact List.sorted_nil

/-- C3: `get_trading_days_between a b` is empty when `a > b`; for
`a ≤ b` it is strictly ascending and contains exactly the days `d` with
`a ≤ d ≤ b` that are trading days; and `is_trading_day` is false on every
Saturday and Sunday (Python weekday 5 or 6). -/
theorem trading_days_between_spec :
    (∀ a b : Nat, b < a → get_trading_days_between a b = []) ∧
    (∀ a b : Nat, a ≤ b →
      List.Sorted (· < ·) (get_trading_days_between a b) ∧
      ∀ d : Nat, d ∈ get_trading_days_between a b ↔
        (a ≤ d ∧ d ≤ b ∧ is_trading_day d = true)) ∧
    (∀ n : Nat, 5 ≤ pyWeekday n → is_trading_day n = false) := by
  refine ⟨fun a b h => gtdb_nil h, fun a b _ => ⟨gtdb_sorted (b + 1 - a) a b (Nat.le_refl _),
    fun d => mem_gtdb (b + 1 - a) a b d (Nat.le_refl _)⟩, fun n h => ?_⟩
  rw [is_trading_day, if_pos h]

/-- Witness for C3 at concrete inputs: an inverted range, the week of
2025-01-02 (739558 = 2025-01-02, 739562 = 2025-01-06), and the Saturday
2025-01-04 (739560). -/
theorem trading_days_between_spec_witness :
    get_trading_days_between 20 10 = [] ∧
    List.Sorted (· < ·) (get_trading_days_between 739558 739562) ∧
    (739559 ∈ get_trading_days_between 739558 739562 ↔
      (739558 ≤ 739559 ∧ 739559 ≤ 739562 ∧ is_trading_day 739559 = true)) ∧
    is_trading_day 739560 = false :=
  ⟨trading_days_between_spec.1 20 10 (by decide),
   (trading_days_between_spec.2.1 739558 739562 (by decide)).1,
   (trading_days_between_spec.2.1 739558 739562 (by decide)).2 739559,
   trading_days_between_spec.2.2 739560 (by decide)⟩

/-! Section: Short-circuit on a missing table (C4) -/

/-- C4: when the physical table does not exist, `validate_stock_data`
returns exactly one `TABLE_EXISTS` ERROR result and runs no other check. -/
theorem validate_missing_table_spec (db : DB) (stock_code : String)
    (h : check_stock_table_exists db stock_code = false) :
    validate_stock_data db stock_code =
      [{ stock_code := stock_code, check_type := "TABLE_EXISTS", status := "ERROR",
         message := "종목 테이블이 존재하지 않음", details := .noDetails }] := by
  rw [validate_stock_data, if_neg (by rw [h]; exact Bool.false_ne_true)]

/-- Witness for C4: an empty store has no table for "005930". -/
theorem validate_missing_table_spec_witness :
    validate_stock_data { stocks := [], tables := [] } "005930" =
      [{ stock_code := "005930", check_type := "TABLE_EXISTS", status := "ERROR",
         message := "종목 테이블이 존재하지 않음", details := .noDetails }] :=
  validate_missing_table_spec { stocks := [], tables := [] } "005930" (by decide)

/-! Section: Collection status aggregates (C9) -/

/-- C9: `get_collection_status` returns the active-instrument count, the
count of active instruments with `table_created`, the sum of their
`data_count`, and `completion_rate = created/total*100`, with rate 0 (and
no division) when there are no active instruments. -/
theorem collection_status_spec (db : DB) :
    (get_collection_status db).total_stocks = (db.stocks.filter (·.is_active)).length ∧
    (get_collection_status db).created_tables =
      ((db.stocks.filter (·.is_active)).filter (·.table_created)).length ∧
    (get_collection_status db).total_records =
      ((db.stocks.filter (·.is_active)).map (·.data_count)).sum ∧
    (0 < (get_collection_status db).total_stocks →
      (get_collection_status db).completion_rate =
        ((get_collection_status db).created_tables : Rat) /
          ((get_collection_status db).total_stocks : Rat) * 100) ∧
    ((get_collection_status db).total_stocks = 0 →
      (get_collection_status db).completion_rate = 0) := by
  refine ⟨rfl, rfl, rfl, ?_, ?_⟩ <;> intro h <;>
    simp only [get_collection_status] at h ⊢
  · rw [if_pos h]
  · rw [if_neg (by omega)]

/-- Witness for C9: a registry whose only instrument is inactive has zero
active instruments and completion rate 0. -/
theorem collection_status_spec_witness :
    (get_collection_status
      { stocks := [{ code := "005930", name := "n", market := "KOSPI",
                     table_created := true, data_count := 3, first_date := none,
                     latest_date := none, is_active := false }],
        tables := [] }).completion_rate = 0 :=
  (collection_status_spec _).2.2.2.2 (by decide)

/-! Section: Duplicate-date check (C6) -/

theorem duplicateDatePairs_sound (rows : List Row) :
    ∀ p ∈ duplicateDatePairs rows,
      p.2 = (rows.map (·.date)).count p.1 ∧ 1 < p.2 := by
  intro p hp
  rw [duplicateDatePairs, List.mem_map] at hp
  obtain ⟨d, hd, rfl⟩ := hp
  rw [List.mem_insertionSort, List.mem_filter] at hd
  exact ⟨rfl, by simpa using hd.2⟩

theorem duplicateDatePairs_complete (rows : List Row) (d : Nat)
    (h : 1 < (rows.map (·.date)).count d) :
    (d, (rows.map (·.date)).count d) ∈ duplicateDatePairs rows := by
  rw [duplicateDatePairs, List.mem_map]
  refine ⟨d, ?_, rfl⟩
  rw [List.mem_insertionSort, List.mem_filter, List.mem_dedup]
  exact ⟨List.count_pos_iff.mp (by omega), by simpa using h⟩

/-- C6: grouping rows by date, the check emits exactly one ERROR result
when some date occurs in more than one row — its message carrying the
number of duplicated dates and the `sum (count - 1)` total, its detail the
first 10 `(date, count)` pairs — and a single PASS result otherwise; the
reported pairs are exactly the dates occurring more than once, with their
multiplicities. -/
theorem duplicate_dates_spec (stock_code : String) (rows : List Row) :
    (duplicateDatePairs rows ≠ [] →
      check_duplicate_dates stock_code rows =
        [{ stock_code := stock_code, check_type := "DUPLICATE_DATES", status := "ERROR",
           message := "중복 날짜 데이터: " ++ toString (duplicateDatePairs rows).length ++
             "개 날짜, 총 " ++
             toString (((duplicateDatePairs rows).map (fun p => p.2 - 1)).sum) ++ "개 중복",
           details := .duplicateDates ((duplicateDatePairs rows).take 10)
             (((duplicateDatePairs rows).map (fun p => p.2 - 1)).sum) }]) ∧
    (duplicateDatePairs rows = [] →
      check_duplicate_dates stock_code rows =
        [{ stock_code := stock_code, check_type := "DUPLICATE_DATES", status := "PASS",
           message := "중복 날짜 없음", details := .noDetails }]) ∧
    (∀ p ∈ duplicateDatePairs rows,
      p.2 = (rows.map (·.date)).count p.1 ∧ 1 < p.2) ∧
    (∀ d : Nat, 1 < (rows.map (·.date)).count d →
      (d, (rows.map (·.date)).count d) ∈ duplicateDatePairs rows) := by
  refine ⟨?_, ?_, duplicateDatePairs_sound rows, duplicateDatePairs_complete rows⟩
  · intro h
    obtain ⟨p, ps, hps⟩ := List.exists_cons_of_ne_nil h
    rw [check_duplicate_dates, hps]
  · intro h
    rw [check_duplicate_dates, h]

/-- Witness for C6, the spec scenario: two rows with the identical date
20250102 yield one duplicated date, total duplicate count 1, ERROR. -/
theorem duplicate_dates_spec_witness :
    check_duplicate_dates "005930"
      [{ date := 20250102, start_price := some 1, high_price := some 1,
         low_price := some 1, current_price := some 100, volume := some 1,
         trading_value := some 1, prev_day_diff := some 0, change_rate := some 0 },
       { date := 20250102, start_price := some 1, high_price := some 1,
         low_price := some 1, current_price := some 100, volume := some 1,
         trading_value := some 1, prev_day_diff := some 0, change_rate := some 0 }] =
      [{ stock_code := "005930", check_type := "DUPLICATE_DATES", status := "ERROR",
         message := "중복 날짜 데이터: 1개 날짜, 총 1개 중복",
         details := .duplicateDates [(20250102, 2)] 1 }] := by
  rw [(duplicate_dates_spec "005930" _).1 (by decide)]
  decide

/-! Section: Volume check (C5) -/

/-- C5: with a positive zero/NULL-volume count the check emits one result
that is WARNING exactly when `zero_count/total*100 < 10` and ERROR
otherwise; with no such rows it emits a PASS result whose detail carries
the (integer-truncated) mean volume over the positive-volume rows. -/
theorem volume_check_spec (stock_code : String) (rows : List Row) :
    (0 < zeroVolumeCount rows →
      check_volume_data stock_code rows =
        [{ stock_code := stock_code, check_type := "ZERO_VOLUME",
           status := if ((zeroVolumeCount rows : Rat) / (rows.length : Rat)) * 100 < 10
             then "WARNING" else "ERROR",
           message := "거래량 0인 데이터: " ++ toString (zeroVolumeCount rows) ++ "개",
           details := .zeroVolume (zeroVolumeCount rows) rows.length
             (((zeroVolumeCount rows : Rat) / (rows.length : Rat)) * 100) }] ∧
      ∀ r ∈ check_volume_data stock_code rows,
        (r.status = "WARNING" ↔ ((zeroVolumeCount rows : Rat) / (rows.length : Rat)) * 100 < 10)) ∧
    (zeroVolumeCount rows = 0 →
      check_volume_data stock_code rows =
        [{ stock_code := stock_code, check_type := "VOLUME_QUALITY", status := "PASS",
           message := "거래량 데이터 양호",
           details := .volumeQuality (Int.floor (avgVolume rows)) }]) := by
  constructor
  · intro h
    have heq : check_volume_data stock_code rows =
        [{ stock_code := stock_code, check_type := "ZERO_VOLUME",
           status := if ((zeroVolumeCount rows : Rat) / (rows.length : Rat)) * 100 < 10
             then "WARNING" else "ERROR",
           message := "거래량 0인 데이터: " ++ toString (zeroVolumeCount rows) ++ "개",
           details := .zeroVolume (zeroVolumeCount rows) rows.length
             (((zeroVolumeCount rows : Rat) / (rows.length : Rat)) * 100) }] := by
      rw [check_volume_data, if_pos h]
    refine ⟨heq, ?_⟩
    intro r hr
    rw [heq, List.mem_singleton] at hr
    subst hr
    by_cases hlt : ((zeroVolumeCount rows : Rat) / (rows.length : Rat)) * 100 < 10
    · simpa [if_pos hlt] using hlt
    · simp only [if_neg hlt]
      constructor
      · intro hcontra
        exact absurd hcontra (by decide)
      · intro hcontra
        exact absurd hcontra hlt
  · intro h
    rw [check_volume_data, if_neg (by omega)]

/-- Witness for C5, the spec scenario: 18 of 20 rows with volume 0 gives
`zero_ratio = 90 ≥ 10`, hence ERROR; and a clean two-row table passes with
the truncated mean volume `⌊(5+10)/2⌋ = 7`. -/
theorem volume_check_spec_witness :
    (check_volume_data "005930" volRows20).map (·.status) = ["ERROR"] ∧
    check_volume_data "005930" volRows2 =
      [{ stock_code := "005930", check_type := "VOLUME_QUALITY", status := "PASS",
         message := "거래량 데이터 양호", details := .volumeQuality 7 }] := by
  constructor
  · rw [((volume_check_spec "005930" volRows20).1 (by decide)).1]
    have h18 : zeroVolumeCount volRows20 = 18 := by decide
    have h20 : volRows20.length = 20 := by decide
    rw [h18, h20, if_neg (by norm_num)]
    rfl
  · rw [(volume_check_spec "005930" volRows2).2 (by decide)]
    have hpos : (volRows2.filterMap (·.volume)).filter (fun v => decide (0 < v)) =
        [5, 10] := by decide
    have hav : avgVolume volRows2 = (15 : Rat) / 2 := by
      rw [avgVolume, hpos]
      norm_num
    rw [hav]
    norm_num

/-! Section: Missing-trading-days check (C1) -/

/-- C1 counterexample: with rows dated 20250107, 20250107, 20250109 the
expected trading days of the stored range are three (0107, 0108, 0109)
while only two distinct dates are stored, so the claim's
`missing = expected - distinct = 1 > 0` demands a WARNING result; the
source instead subtracts `COUNT(*) = 3` and emits PASS. -/
theorem missing_days_distinct_counterexample :
    ((expectedDays dupGapRows).length : Int) -
      (((dupGapRows.map (·.date)).dedup.length : Nat) : Int) = 1 ∧
    (check_missing_trading_days "X" dupGapRows).map (·.status) = ["PASS"] := by
  decide

theorem min_max_of_ne_nil {rows : List Row} (h : rows ≠ []) :
    (rows.map (·.date)).min? = some (minDate rows) ∧
    (rows.map (·.date)).max? = some (maxDate rows) := by
  have hne : rows.map (·.date) ≠ [] := by
    simpa using h
  constructor
  · cases hm : (rows.map (·.date)).min? with
    | none => exact absurd (List.min?_eq_none_iff.mp hm) hne
    | some a => rw [minDate, hm]; rfl
  · cases hm : (rows.map (·.date)).max? with
    | none => exact absurd (List.max?_eq_none_iff.mp hm) hne
    | some a => rw [maxDate, hm]; rfl

/-- C1 amended: for a non-empty table, the check compares the expected
trading-day count of `[MIN(date), MAX(date)]` against the **total row
count** (`COUNT(*)`, counting duplicated dates multiply, not the distinct
date count); when that difference is positive it emits one result,
WARNING for `missing <= 5` and ERROR above, whose detail carries the
first 10 set-difference sample dates and the date range; otherwise it
emits a single PASS result. -/
theorem missing_days_spec (stock_code : String) (rows : List Row) (h : rows ≠ []) :
    (0 < tableMissingCount rows →
      check_missing_trading_days stock_code rows =
        [{ stock_code := stock_code, check_type := "MISSING_TRADING_DAYS",
           status := if tableMissingCount rows ≤ 5 then "WARNING" else "ERROR",
           message := "누락된 거래일: " ++ toString (tableMissingCount rows) ++ "개",
           details := .missingDays (expectedDays rows).length rows.length
             (tableMissingCount rows) ((tableMissingDates rows).take 10)
             (minDate rows) (maxDate rows) }]) ∧
    (tableMissingCount rows ≤ 0 →
      check_missing_trading_days stock_code rows =
        [{ stock_code := stock_code, check_type := "MISSING_TRADING_DAYS",
           status := "PASS",
           message := "거래일 데이터 완전함 (" ++ toString rows.length ++ "개)",
           details := .missingPass (expectedDays rows).length rows.length }]) := by
  obtain ⟨hmin, hmax⟩ := min_max_of_ne_nil h
  constructor
  · intro hc
    rw [check_missing_trading_days, hmin, hmax]
    simp only [tableMissingCount, expectedDays] at hc ⊢
    rw [if_pos hc, tableMissingDates, expectedDays]
  · intro hc
    rw [check_missing_trading_days, hmin, hmax]
    simp only [tableMissingCount, expectedDays] at hc ⊢
    rw [if_neg (by omega)]

/-- Witness for C1 (amended), the spec scenario: bars on 20250102 and
20250106 with the trading day 20250103 absent give `missing = 1`,
severity WARNING, and "20250103" among the sample missing dates. -/
theorem missing_days_spec_witness :
    check_missing_trading_days "005930" gapRows =
      [{ stock_code := "005930", check_type := "MISSING_TRADING_DAYS",
         status := "WARNING", message := "누락된 거래일: 1개",
         details := .missingDays 3 2 1 [20250103] 20250102 20250106 }] := by
  rw [(missing_days_spec "005930" gapRows (by decide)).1 (by decide)]
  decide

/-! Section: Price check (C2 and C10) -/

/-- When at least one row has a positive close, the price check is the
concatenation of its three conditional results. -/
theorem check_price_anomalies_eq (stock_code : String) (rows : List Row)
    (hpos : positivePrices rows ≠ []) :
    check_price_anomalies stock_code rows =
      (if ((sortByDateDesc (priceAnomalousRows rows)).take 10).isEmpty then []
       else
        [{ stock_code := stock_code, check_type := "PRICE_ANOMALIES", status := "WARNING",
           message := "가격 이상값 " ++
             toString ((sortByDateDesc (priceAnomalousRows rows)).take 10).length ++ "개 발견",
           details := Details.priceAnomalies (Int.floor (avgClose rows))
             (anomalyReportPairs rows) (Int.floor (avgClose rows * (1/2)))
             (Int.floor (avgClose rows * 3)) }]) ++
      (if 0 < zeroPriceCount rows then
        [{ stock_code := stock_code, check_type := "ZERO_PRICE", status := "ERROR",
           message := "0원 또는 NULL 가격 데이터: " ++ toString (zeroPriceCount rows) ++ "개",
           details := Details.zeroPrice (zeroPriceCount rows) }]
       else []) ++
      (if ((sortByDateDesc (priceAnomalousRows rows)).take 10).isEmpty ∧
          zeroPriceCount rows = 0 then
        [{ stock_code := stock_code, check_type := "PRICE_QUALITY", status := "PASS",
           message := "가격 데이터 품질 양호",
           details := Details.priceQuality (Int.floor (avgClose rows))
             ((positivePrices rows).min?.getD 0) ((positivePrices rows).max?.getD 0) }]
       else []) := by
  rw [check_price_anomalies,
    if_neg (by simpa [List.length_eq_zero] using hpos)]

/-- A positive zero/NULL-close count puts the ZERO_PRICE ERROR result in
the output (given some positive close exists). -/
theorem zero_price_result_mem (stock_code : String) (rows : List Row)
    (hpos : positivePrices rows ≠ []) (hz : 0 < zeroPriceCount rows) :
    { stock_code := stock_code, check_type := "ZERO_PRICE", status := "ERROR",
      message := "0원 또는 NULL 가격 데이터: " ++ toString (zeroPriceCount rows) ++ "개",
      details := Details.zeroPrice (zeroPriceCount rows) } ∈
      check_price_anomalies stock_code rows := by
  rw [check_price_anomalies_eq stock_code rows hpos]
  refine List.mem_append_left _ (List.mem_append_right _ ?_)
  rw [if_pos hz]
  exact List.mem_singleton.mpr rfl

/-- C2 counterexample: a table whose single row has close price 0 has a
positive zero/NULL-close count, yet the check emits no result at all
(the source returns early when no row has a positive close), in
particular no ZERO_PRICE ERROR and no PASS. -/
theorem zero_price_counterexample :
    0 < zeroPriceCount [sampleRow 20250102 (some 0) (some 1)] ∧
    check_price_anomalies "X" [sampleRow 20250102 (some 0) (some 1)] = [] := by
  decide

/-- C2 amended: for a table that has at least one row with positive close
price, a positive count of zero/NULL-close rows puts a ZERO_PRICE ERROR
result carrying that count in the output; and with no anomalous row and
no zero/NULL-close row the check emits the single PASS result with the
summary statistics. -/
theorem price_check_spec (stock_code : String) (rows : List Row)
    (hpos : positivePrices rows ≠ []) :
    (0 < zeroPriceCount rows →
      { stock_code := stock_code, check_type := "ZERO_PRICE", status := "ERROR",
        message := "0원 또는 NULL 가격 데이터: " ++ toString (zeroPriceCount rows) ++ "개",
        details := Details.zeroPrice (zeroPriceCount rows) } ∈
        check_price_anomalies stock_code rows) ∧
    (priceAnomalousRows rows = [] ∧ zeroPriceCount rows = 0 →
      check_price_anomalies stock_code rows =
        [{ stock_code := stock_code, check_type := "PRICE_QUALITY", status := "PASS",
           message := "가격 데이터 품질 양호",
           details := Details.priceQuality (Int.floor (avgClose rows))
             ((positivePrices rows).min?.getD 0)
             ((positivePrices rows).max?.getD 0) }]) := by
  refine ⟨zero_price_result_mem stock_code rows hpos, ?_⟩
  rintro ⟨ha, hz⟩
  rw [check_price_anomalies_eq stock_code rows hpos, ha]
  simp [sortByDateDesc, hz]

/-- Witness for C2 (amended): a positive-close table with one zero-close
row reports the ZERO_PRICE ERROR, and a single-row clean table gets the
single PASS result. -/
theorem price_check_spec_witness :
    ({ stock_code := "X", check_type := "ZERO_PRICE", status := "ERROR",
       message := "0원 또는 NULL 가격 데이터: " ++ toString (zeroPriceCount mixedRows) ++ "개",
       details := Details.zeroPrice (zeroPriceCount mixedRows) } ∈
      check_price_anomalies "X" mixedRows) ∧
    check_price_anomalies "X" cleanRow1 =
      [{ stock_code := "X", check_type := "PRICE_QUALITY", status := "PASS",
         message := "가격 데이터 품질 양호",
         details := Details.priceQuality (Int.floor (avgClose cleanRow1))
           ((positivePrices cleanRow1).min?.getD 0)
           ((positivePrices cleanRow1).max?.getD 0) }] := by
  constructor
  · exact (price_check_spec "X" mixedRows (by decide)).1 (by decide)
  · refine (price_check_spec "X" cleanRow1 (by decide)).2 ⟨?_, by decide⟩
    have h1 : positivePrices cleanRow1 = [100] := by decide
    have havg : avgClose cleanRow1 = 100 := by
      rw [avgClose, h1]
      norm_num
    simp only [priceAnomalousRows, havg]
    simp only [cleanRow1, sampleRow]
    norm_num

theorem avgClose_pos (rows : List Row) (hpos : positivePrices rows ≠ []) :
    0 < avgClose rows := by
  have hall : ∀ x ∈ positivePrices rows, (0 : Int) < x := by
    intro x hx
    rw [positivePrices, List.mem_filter] at hx
    simpa using hx.2
  have hsum : (0 : Int) < (positivePrices rows).sum := List.sum_pos _ hall hpos
  have hlen : 0 < (positivePrices rows).length := List.length_pos.mpr hpos
  rw [avgClose]
  apply div_pos
  · exact_mod_cast hsum
  · exact_mod_cast hlen

/-- C10: a zero-close row in a table that also has a positive-close row
is reported twice: it satisfies the anomaly predicate (0 is below the
positive low threshold, the anomaly scan not being restricted to positive
closes), so a PRICE_ANOMALIES WARNING is emitted whose detail pairs are
the 10 most recent anomalous rows (containing this row's `(date, 0)` when
it is within that limit), and it is also counted by the ZERO_PRICE ERROR
result. -/
theorem zero_price_double_report_spec (stock_code : String) (rows : List Row)
    (r0 : Row) (hpos : positivePrices rows ≠ []) (hmem : r0 ∈ rows)
    (hz : r0.current_price = some 0) :
    0 < avgClose rows * (1/2) ∧
    r0 ∈ priceAnomalousRows rows ∧
    ({ stock_code := stock_code, check_type := "PRICE_ANOMALIES", status := "WARNING",
       message := "가격 이상값 " ++
         toString ((sortByDateDesc (priceAnomalousRows rows)).take 10).length ++ "개 발견",
       details := Details.priceAnomalies (Int.floor (avgClose rows))
         (anomalyReportPairs rows) (Int.floor (avgClose rows * (1/2)))
         (Int.floor (avgClose rows * 3)) } ∈ check_price_anomalies stock_code rows) ∧
    0 < zeroPriceCount rows ∧
    ({ stock_code := stock_code, check_type := "ZERO_PRICE", status := "ERROR",
       message := "0원 또는 NULL 가격 데이터: " ++ toString (zeroPriceCount rows) ++ "개",
       details := Details.zeroPrice (zeroPriceCount rows) } ∈
      check_price_anomalies stock_code rows) ∧
    (r0 ∈ (sortByDateDesc (priceAnomalousRows rows)).take 10 →
      (r0.date, (0 : Int)) ∈ anomalyReportPairs rows) := by
  have hthr : 0 < avgClose rows * (1/2) := by
    have := avgClose_pos rows hpos
    positivity
  have hanom : r0 ∈ priceAnomalousRows rows := by
    rw [priceAnomalousRows, List.mem_filter, hz]
    refine ⟨hmem, ?_⟩
    simp only [Bool.or_eq_true, decide_eq_true_eq]
    left
    exact_mod_cast hthr
  have hzc : 0 < zeroPriceCount rows := by
    rw [zeroPriceCount]
    refine List.countP_pos_iff.mpr ⟨r0, hmem, ?_⟩
    simp [hz]
  have htake : ((sortByDateDesc (priceAnomalousRows rows)).take 10).isEmpty = false := by
    rw [Bool.eq_false_iff]
    intro hemp
    rcases List.take_eq_nil_iff.mp (List.isEmpty_iff.mp hemp) with h10 | hnil
    · exact absurd h10 (by decide)
    · have : r0 ∈ sortByDateDesc (priceAnomalousRows rows) := by
        rw [sortByDateDesc, List.mem_insertionSort]
        exact hanom
      rw [hnil] at this
      exact absurd this (List.not_mem_nil r0)
  refine ⟨hthr, hanom, ?_, hzc, zero_price_result_mem stock_code rows hpos hzc, ?_⟩
  · rw [check_price_anomalies_eq stock_code rows hpos]
    refine List.mem_append_left _ (List.mem_append_left _ ?_)
    rw [htake]
    exact List.mem_singleton.mpr rfl
  · intro h10
    rw [anomalyReportPairs]
    rw [List.mem_filterMap]
    refine ⟨r0, h10, ?_⟩
    rw [hz]
    rfl

/-- Witness for C10: in the two-row table with closes 100 and 0, the
zero-close row is below the positive low threshold, lands in the anomaly
report (it is within the 10-row limit), and is counted by ZERO_PRICE. -/
theorem zero_price_double_report_spec_witness :
    0 < avgClose mixedRows * (1/2) ∧
    sampleRow 20250103 (some 0) (some 1) ∈ priceAnomalousRows mixedRows ∧
    ({ stock_code := "X", check_type := "PRICE_ANOMALIES", status := "WARNING",
       message := "가격 이상값 " ++
         toString ((sortByDateDesc (priceAnomalousRows mixedRows)).take 10).length ++ "개 발견",
       details := Details.priceAnomalies (Int.floor (avgClose mixedRows))
         (anomalyReportPairs mixedRows) (Int.floor (avgClose mixedRows * (1/2)))
         (Int.floor (avgClose mixedRows * 3)) } ∈ check_price_anomalies "X" mixedRows) ∧
    0 < zeroPriceCount mixedRows ∧
    ({ stock_code := "X", check_type := "ZERO_PRICE", status := "ERROR",
       message := "0원 또는 NULL 가격 데이터: " ++ toString (zeroPriceCount mixedRows) ++ "개",
       details := Details.zeroPrice (zeroPriceCount mixedRows) } ∈
      check_price_anomalies "X" mixedRows) ∧
    (sampleRow 20250103 (some 0) (some 1) ∈
        (sortByDateDesc (priceAnomalousRows mixedRows)).take 10 →
      ((sampleRow 20250103 (some 0) (some 1)).date, (0 : Int)) ∈
        anomalyReportPairs mixedRows) :=
  zero_price_double_report_spec "X" mixedRows (sampleRow 20250103 (some 0) (some 1))
    (by decide) (by decide) (by decide)

/-! Section: Store-operation lemmas for the registry and the upsert path -/

theorem register_tables (db : DB) (c : String) (n m : Option String) :
    ((register_stock db c n m).1).tables = db.tables := by
  rw [register_stock]
  cases findStock db.stocks c <;> rfl

theorem mark_tables (db : DB) (c : String) :
    ((mark_table_created db c).1).tables = db.tables := by
  rw [mark_table_created]
  cases findStock db.stocks c <;> rfl

theorem usts_tables (db : DB) (c : String) :
    ((update_stock_stats db c).1).tables = db.tables := by
  rw [update_stock_stats]
  cases findStock db.stocks c
  · rfl
  · cases lookupTable db.tables ("daily_prices_" ++ c) <;> rfl

theorem findStock_updateStock (ss : List StockMeta) (c : String)
    (f : StockMeta → StockMeta) (hf : ∀ s, (f s).code = s.code) :
    findStock (updateStock ss c f) c = (findStock ss c).map f := by
  induction ss with
  | nil => rfl
  | cons s rest ih =>
    rw [updateStock]
    by_cases h : s.code = c
    · rw [if_pos h]
      simp only [findStock]
      rw [if_pos ((hf s).trans h), if_pos h]
      rfl
    · rw [if_neg h]
      simp only [findStock]
      rw [if_neg h, if_neg h, ih]

theorem findStock_append_right {l1 : List StockMeta} (l2 : List StockMeta)
    (c : String) (h : findStock l1 c = none) :
    findStock (l1 ++ l2) c = findStock l2 c := by
  induction l1 with
  | nil => rfl
  | cons s rest ih =>
    rw [findStock] at h
    rw [List.cons_append, findStock]
    by_cases hs : s.code = c
    · rw [if_pos hs] at h
      exact absurd h (by simp)
    · rw [if_neg hs] at h ⊢
      exact ih h

theorem register_find_isSome (db : DB) (c : String) (n m : Option String) :
    (findStock ((register_stock db c n m).1).stocks c).isSome := by
  rw [register_stock]
  cases hf : findStock db.stocks c with
  | some s =>
    simp only []
    rw [findStock_updateStock]
    · rw [hf]; rfl
    · exact fun _ => rfl
  | none =>
    simp only []
    rw [findStock_append_right _ c hf, findStock, if_pos rfl]
    rfl

theorem mark_find_isSome (db : DB) (c : String)
    (h : (findStock db.stocks c).isSome) :
    (findStock ((mark_table_created db c).1).stocks c).isSome := by
  rw [mark_table_created]
  cases hf : findStock db.stocks c with
  | some s =>
    simp only []
    rw [findStock_updateStock]
    · rw [hf]; rfl
    · exact fun _ => rfl
  | none => rw [hf] at h; exact absurd h (by simp)

theorem usts_find_isSome (db : DB) (c : String)
    (h : (findStock db.stocks c).isSome) :
    (findStock ((update_stock_stats db c).1).stocks c).isSome := by
  rw [update_stock_stats]
  cases hf : findStock db.stocks c with
  | some s =>
    cases lookupTable db.tables ("daily_prices_" ++ c) with
    | some rows =>
      simp only []
      rw [findStock_updateStock]
      · rw [hf]; rfl
      · exact fun _ => rfl
    | none => simp [hf]
  | none => rw [hf] at h; exact absurd h (by simp)

theorem lookupTable_updateTable_self :
    ∀ (T : List (String × List Row)) (n : String) (rows : List Row),
      (lookupTable T n).isSome → lookupTable (updateTable T n rows) n = some rows
  | [], n, rows, h => absurd h (by simp [lookupTable])
  | (m, rs) :: rest, n, rows, h => by
    rw [updateTable]
    by_cases hp : m = n
    · rw [if_pos hp, lookupTable, if_pos hp]
    · rw [if_neg hp, lookupTable, if_neg hp]
      apply lookupTable_updateTable_self
      rw [lookupTable, if_neg hp] at h
      exact h

theorem register_snd (db : DB) (c : String) (n m : Option String) :
    (register_stock db c n m).2 = true := by
  rw [register_stock]
  cases findStock db.stocks c <;> rfl

theorem create_snd (db : DB) (c : String) :
    (create_stock_daily_table db c).2 = true := by
  rw [create_stock_daily_table]
  by_cases h : check_stock_table_exists db c = true
  · rw [if_pos h]
  · rw [if_neg h]

theorem prepare_eq (db : DB) (c : String) (n m : Option String) :
    prepare_stock_for_collection db c n m =
      ((mark_table_created (create_stock_daily_table (register_stock db c n m).1 c).1 c).1,
       true) := by
  rw [prepare_stock_for_collection]
  simp only [register_snd, create_snd, if_true]

/-- On an existing table, the upsert updates the matching rows in place or
appends, then refreshes the stats (which do not touch the tables). -/
theorem add_eq_of_exists (db : DB) (c : String) (bar : Bar) (rs : List Row)
    (h1 : lookupTable db.tables (get_stock_table_name c) = some rs) :
    add_daily_price_to_stock db c bar =
      ((update_stock_stats
        { db with tables := (updateTable db.tables (get_stock_table_name c)
            (if rs.any (fun r => r.date = bar.date) then
               rs.map (fun r => if r.date = bar.date then barToRow bar else r)
             else rs ++ [barToRow bar])) } c).1, true) := by
  have hex : check_stock_table_exists db c = true := by
    rw [check_stock_table_exists, h1]
    rfl
  rw [add_daily_price_to_stock, hex]
  simp only [if_true, h1, Option.getD_some]

/-- On a missing table, the upsert auto-creates the table and the write
leaves exactly the one new row in it. -/
theorem add_missing_lookup (db : DB) (c : String) (bar : Bar)
    (h : check_stock_table_exists db c = false) :
    lookupTable ((add_daily_price_to_stock db c bar).1).tables (get_stock_table_name c) =
      some [barToRow bar] := by
  have hreg : ((register_stock db c none none).1).tables = db.tables :=
    register_tables db c none none
  have hex2 : check_stock_table_exists (register_stock db c none none).1 c = false := by
    rw [check_stock_table_exists, hreg]
    rw [check_stock_table_exists] at h
    exact h
  have hcr : ((create_stock_daily_table (register_stock db c none none).1 c).1).tables =
      (get_stock_table_name c, []) :: db.tables := by
    rw [create_stock_daily_table, if_neg (by rw [hex2]; exact Bool.false_ne_true)]
    rw [← hreg]
  have hpt : ((mark_table_created
      (create_stock_daily_table (register_stock db c none none).1 c).1 c).1).tables =
      (get_stock_table_name c, []) :: db.tables := by
    rw [mark_tables, hcr]
  rw [add_daily_price_to_stock, h]
  simp only [Bool.false_eq_true, if_false, prepare_eq, if_true, hpt, lookupTable,
    if_pos rfl, Option.getD_some, List.any_nil, List.nil_append, usts_tables,
    updateTable]

theorem add_snd (db : DB) (c : String) (bar : Bar) :
    (add_daily_price_to_stock db c bar).2 = true := by
  by_cases h : check_stock_table_exists db c = true
  · obtain ⟨rs, hrs⟩ := Option.isSome_iff_exists.mp h
    rw [add_eq_of_exists db c bar rs hrs]
  · rw [add_daily_price_to_stock, if_neg h]
    simp only [prepare_eq, if_true]

/-- After any upsert the table holds a row for the bar's date. -/
theorem add_contains_date (db : DB) (c : String) (bar : Bar) :
    ∃ rs, lookupTable ((add_daily_price_to_stock db c bar).1).tables
        (get_stock_table_name c) = some rs ∧
      ∃ r ∈ rs, r.date = bar.date := by
  by_cases h : check_stock_table_exists db c = true
  · obtain ⟨rs0, hrs0⟩ := Option.isSome_iff_exists.mp h
    rw [add_eq_of_exists db c bar rs0 hrs0]
    simp only [usts_tables]
    refine ⟨_, lookupTable_updateTable_self db.tables _ _ (by rw [hrs0]; rfl), ?_⟩
    by_cases hany : rs0.any (fun r => r.date = bar.date) = true
    · rw [if_pos hany]
      obtain ⟨r0, hr0, hd0⟩ := List.any_eq_true.mp hany
      refine ⟨barToRow bar, ?_, rfl⟩
      rw [List.mem_map]
      exact ⟨r0, hr0, by rw [if_pos (by exact of_decide_eq_true hd0)]⟩
    · rw [if_neg hany]
      exact ⟨barToRow bar, List.mem_append_right _ (List.mem_singleton.mpr rfl), rfl⟩
  · rw [add_missing_lookup db c bar (Bool.not_eq_true _ ▸ h)]
    exact ⟨[barToRow bar], rfl, barToRow bar, List.mem_singleton.mpr rfl, rfl⟩

/-! Section: Idempotence of create and upsert (C8) -/

/-- C8: `create_stock_daily_table` run a second time succeeds and returns
the state unchanged (so no table data is altered); and upserting a second
bar with the same date maps the existing rows in place — the row count is
unchanged, every row of that date now holds the second bar's fields, and
the call succeeds. -/
theorem create_upsert_idempotent_spec :
    (∀ (db : DB) (c : String),
      (create_stock_daily_table db c).2 = true ∧
      create_stock_daily_table (create_stock_daily_table db c).1 c =
        ((create_stock_daily_table db c).1, true)) ∧
    (∀ (db : DB) (c : String) (bar bar' : Bar), bar'.date = bar.date →
      (tableRows ((add_daily_price_to_stock
          (add_daily_price_to_stock db c bar).1 c bar').1) c).length =
        (tableRows ((add_daily_price_to_stock db c bar).1) c).length ∧
      tableRows ((add_daily_price_to_stock
          (add_daily_price_to_stock db c bar).1 c bar').1) c =
        (tableRows ((add_daily_price_to_stock db c bar).1) c).map
          (fun r => if r.date = bar.date then barToRow bar' else r) ∧
      (∃ r ∈ tableRows ((add_daily_price_to_stock
          (add_daily_price_to_stock db c bar).1 c bar').1) c, r = barToRow bar') ∧
      (add_daily_price_to_stock (add_daily_price_to_stock db c bar).1 c bar').2 =
        true) := by
  constructor
  · intro db c
    refine ⟨create_snd db c, ?_⟩
    by_cases h : check_stock_table_exists db c = true
    · have e1 : create_stock_daily_table db c = (db, true) := by
        rw [create_stock_daily_table, if_pos h]
      rw [e1]
      exact e1
    · have e1 : create_stock_daily_table db c =
          ({ db with tables := (get_stock_table_name c, []) :: db.tables }, true) := by
        rw [create_stock_daily_table, if_neg h]
      have h2 : check_stock_table_exists
          { db with tables := (get_stock_table_name c, []) :: db.tables } c = true := by
        rw [check_stock_table_exists, lookupTable, if_pos rfl]
        rfl
      rw [e1, create_stock_daily_table, if_pos h2]
  · intro db c bar bar' hdate
    obtain ⟨rs1, hl1, r1, hr1m, hr1d⟩ := add_contains_date db c bar
    have hany : rs1.any (fun r => r.date = bar'.date) = true := by
      rw [List.any_eq_true]
      exact ⟨r1, hr1m, decide_eq_true (by rw [hr1d, hdate])⟩
    rw [add_eq_of_exists _ c bar' rs1 hl1]
    simp only [tableRows, usts_tables, hl1, Option.getD_some]
    rw [lookupTable_updateTable_self _ _ _ (by rw [hl1]; rfl)]
    rw [if_pos hany]
    simp only [Option.getD_some, hdate]
    refine ⟨List.length_map _ _, trivial, ?_, trivial⟩
    refine ⟨barToRow bar', ?_, rfl⟩
    rw [List.mem_map]
    exact ⟨r1, hr1m, by rw [if_pos hr1d]⟩

/-- Witness for C8 at a concrete store: create twice on an empty store,
and upsert the same date 20250102 twice. -/
theorem create_upsert_idempotent_spec_witness :
    ((create_stock_daily_table { stocks := [], tables := [] } "005930").2 = true ∧
      create_stock_daily_table
        (create_stock_daily_table { stocks := [], tables := [] } "005930").1 "005930" =
        ((create_stock_daily_table { stocks := [], tables := [] } "005930").1, true)) ∧
    (tableRows ((add_daily_price_to_stock
        (add_daily_price_to_stock { stocks := [], tables := [] } "005930"
          (sampleBar 20250102 100 5)).1 "005930" (sampleBar 20250102 999 7)).1)
        "005930").length =
      (tableRows ((add_daily_price_to_stock { stocks := [], tables := [] } "005930"
          (sampleBar 20250102 100 5)).1) "005930").length ∧
    tableRows ((add_daily_price_to_stock
        (add_daily_price_to_stock { stocks := [], tables := [] } "005930"
          (sampleBar 20250102 100 5)).1 "005930" (sampleBar 20250102 999 7)).1)
        "005930" =
      (tableRows ((add_daily_price_to_stock { stocks := [], tables := [] } "005930"
          (sampleBar 20250102 100 5)).1) "005930").map
        (fun r => if r.date = (sampleBar 20250102 100 5).date then
          barToRow (sampleBar 20250102 999 7) else r) :=
  ⟨create_upsert_idempotent_spec.1 { stocks := [], tables := [] } "005930",
   (create_upsert_idempotent_spec.2 { stocks := [], tables := [] } "005930"
      (sampleBar 20250102 100 5) (sampleBar 20250102 999 7) rfl).1,
   (create_upsert_idempotent_spec.2 { stocks := [], tables := [] } "005930"
      (sampleBar 20250102 100 5) (sampleBar 20250102 999 7) rfl).2.1⟩

/-! Section: Round-trip of registration, table creation, upserts and stats (C7) -/

theorem writeBars_table (c : String) : ∀ (bars pre : List Bar) (db : DB),
    lookupTable db.tables (get_stock_table_name c) = some (pre.map barToRow) →
    (findStock db.stocks c).isSome →
    ((pre ++ bars).map (fun b => b.date)).Nodup →
    lookupTable ((writeBars db c bars).tables) (get_stock_table_name c) =
      some ((pre ++ bars).map barToRow) ∧
    (findStock (writeBars db c bars).stocks c).isSome := by
  intro bars
  induction bars with
  | nil =>
    intro pre db h1 h2 _
    rw [writeBars, List.foldl_nil, List.append_nil]
    exact ⟨h1, h2⟩
  | cons b bs ih =>
    intro pre db h1 h2 hnd
    have hnotin : b.date ∉ pre.map (fun b => b.date) := by
      rw [List.map_append] at hnd
      have hdisj := List.disjoint_of_nodup_append hnd
      intro hmem
      exact hdisj hmem (by rw [List.map_cons]; exact List.mem_cons_self _ _)
    have hany : (pre.map barToRow).any (fun r => r.date = b.date) = false := by
      rw [List.any_eq_false]
      intro r hr
      obtain ⟨a, ha, rfl⟩ := List.mem_map.mp hr
      simp only [barToRow, decide_eq_true_eq]
      intro heq
      exact hnotin (heq ▸ List.mem_map_of_mem (fun b => b.date) ha)
    have hstep : (add_daily_price_to_stock db c b).1 =
        (update_stock_stats
          { db with tables := (updateTable db.tables (get_stock_table_name c)
              ((pre.map barToRow) ++ [barToRow b])) } c).1 := by
      rw [add_eq_of_exists db c b (pre.map barToRow) h1]
      rw [hany]
      rfl
    have hw : writeBars db c (b :: bs) =
        writeBars (add_daily_price_to_stock db c b).1 c bs := by
      rw [writeBars, writeBars, List.foldl_cons]
    rw [hw, hstep]
    have hl : lookupTable ((update_stock_stats
        { db with tables := (updateTable db.tables (get_stock_table_name c)
            ((pre.map barToRow) ++ [barToRow b])) } c).1).tables
        (get_stock_table_name c) = some ((pre ++ [b]).map barToRow) := by
      rw [usts_tables]
      simp only []
      rw [lookupTable_updateTable_self _ _ _ (by rw [h1]; rfl)]
      rw [List.map_append]
      rfl
    have hs : (findStock ((update_stock_stats
        { db with tables := (updateTable db.tables (get_stock_table_name c)
            ((pre.map barToRow) ++ [barToRow b])) } c).1).stocks c).isSome := by
      apply usts_find_isSome
      exact h2
    have hnd2 : (((pre ++ [b]) ++ bs).map (fun b => b.date)).Nodup := by
      rw [List.append_assoc]
      exact hnd
    have := ih (pre ++ [b]) _ hl hs hnd2
    rwa [List.append_assoc] at this

/-- C7: starting from a store with no physical table for the instrument,
registering it, creating its table, writing bars with pairwise-distinct
dates through the upsert path and then recomputing the stats leaves the
registry row with `data_count` the number of bars, `first_date` the
minimum written date and `latest_date` the maximum written date. -/
theorem roundtrip_stats_spec (db : DB) (stock_code : String)
    (name market : Option String) (bars : List Bar)
    (htab : lookupTable db.tables (get_stock_table_name stock_code) = none)
    (hnodup : (bars.map (fun b => b.date)).Nodup) :
    ∃ s, findStock ((update_stock_stats (writeBars
        ((create_stock_daily_table ((register_stock db stock_code name market).1)
          stock_code).1) stock_code bars) stock_code).1).stocks stock_code = some s ∧
      s.data_count = bars.length ∧
      s.first_date = (bars.map (fun b => b.date)).min? ∧
      s.latest_date = (bars.map (fun b => b.date)).max? := by
  have h1tab : ((register_stock db stock_code name market).1).tables = db.tables :=
    register_tables db stock_code name market
  have hex1 : ¬ (check_stock_table_exists
      (register_stock db stock_code name market).1 stock_code = true) := by
    rw [check_stock_table_exists, h1tab, htab]
    exact Bool.false_ne_true
  have e2 : (create_stock_daily_table
      (register_stock db stock_code name market).1 stock_code).1 =
      { (register_stock db stock_code name market).1 with
        tables := (get_stock_table_name stock_code, []) ::
          ((register_stock db stock_code name market).1).tables } := by
    rw [create_stock_daily_table, if_neg hex1]
  have hl2 : lookupTable ((create_stock_daily_table
      (register_stock db stock_code name market).1 stock_code).1).tables
      (get_stock_table_name stock_code) = some (([] : List Bar).map barToRow) := by
    rw [e2]
    simp only []
    rw [lookupTable, if_pos rfl]
    rfl
  have hs2 : (findStock ((create_stock_daily_table
      (register_stock db stock_code name market).1 stock_code).1).stocks
      stock_code).isSome := by
    rw [e2]
    exact register_find_isSome db stock_code name market
  obtain ⟨hwl, hws⟩ := writeBars_table stock_code bars [] _ hl2 hs2
    (by rw [List.nil_append]; exact hnodup)
  rw [List.nil_append] at hwl
  obtain ⟨s0, hs0⟩ := Option.isSome_iff_exists.mp hws
  rw [update_stock_stats, hs0]
  rw [show ("daily_prices_" ++ stock_code) = get_stock_table_name stock_code from rfl,
    hwl]
  simp only []
  rw [findStock_updateStock]
  case hf => exact fun _ => rfl
  rw [hs0]
  refine ⟨_, rfl, List.length_map _ _, ?_, ?_⟩ <;>
    simp only [List.map_map] <;>
    rw [show ((fun r => r.date) ∘ barToRow) = (fun b : Bar => b.date) from rfl] <;>
    by_cases hb : bars = []
  · rw [hb]
    rfl
  · rw [if_pos (by
      rw [List.length_map]
      exact List.length_pos.mpr hb)]
  · rw [hb]
    rfl
  · rw [if_pos (by
      rw [List.length_map]
      exact List.length_pos.mpr hb)]

/-- Witness for C7: two bars (20250103 then 20250102) written into a
fresh store leave `data_count = 2`, `first_date = 20250102`,
`latest_date = 20250103` in the registry row. -/
theorem roundtrip_stats_spec_witness :
    (findStock ((update_stock_stats (writeBars
        ((create_stock_daily_table ((register_stock { stocks := [], tables := [] }
          "005930" (some "삼성전자") (some "KOSPI")).1) "005930").1) "005930"
        [sampleBar 20250103 110 6, sampleBar 20250102 100 5]) "005930").1).stocks
      "005930").map (fun s => (s.data_count, s.first_date, s.latest_date)) =
      some (2, some 20250102, some 20250103) := by
  obtain ⟨s, hs, h1, h2, h3⟩ := roundtrip_stats_spec { stocks := [], tables := [] }
    "005930" (some "삼성전자") (some "KOSPI")
    [sampleBar 20250103 110 6, sampleBar 20250102 100 5] rfl (by decide)
  rw [hs, Option.map_some', h1, h2, h3]
  decide

end Kiwoom
